import Mathlib

/-!
Verification development for the TopHat GPU monitor sources.

The embedding covers three source files:

* `lib/gpu.js` (named file): class `GpuMonitor` with `_startTimers`,
  `_stopTimers`, `_refreshCharts` (reads two sysfs pseudo files with
  `parseInt(new FileModule.File(path).readSync())`, pushes the GPU usage
  onto a bounded rolling `history` array) and `_repaintHistory`
  (polyline geometry for the history chart).
* `part_000` (unnamed file, legacy single vendor variant, suffix `Sv`
  below): same class shape, but `_refreshCharts` wraps each read in
  try/catch (on an exception it logs and executes a bare `return`, so
  the timer callback yields `undefined`), and the parsed value is the
  JavaScript number coercion `contentStr / 100` after `trim()`.
* `part_001` (unnamed file, helpers): `GpuDevice` / `AmdGpu` device
  descriptors, `findGpuDevices` discovery over `/sys/class/drm/`, and
  `bytesToHumanString` formatting.

JavaScript values that can be `NaN` are embedded as `Option` values with
`none` standing for `NaN`; a file read that can throw is an
`Option String` with `none` standing for the thrown exception.  All
numeric arithmetic of the sources is over JavaScript doubles holding
small integers and exact fractions; it is embedded in `ℚ` (and `ℤ` for
`parseInt` results), where every operation performed by the code is
exact.
-/

/-- Characters treated as whitespace by the JavaScript string functions
used in the sources (`parseInt` leading-whitespace skipping and
`String.prototype.trim`), restricted to the ASCII whitespace that can
occur in sysfs pseudo file content. -/
def jsWhitespace (c : Char) : Bool :=
  c = ' ' || c = '\n' || c = '\t' || c = '\r'

/-- Longest prefix of decimal digit characters. -/
def takeDigits : List Char → List Char
  | [] => []
  | c :: cs => if c.isDigit then c :: takeDigits cs else []

/-- Numeric value of a list of decimal digit characters, most
significant digit first. -/
def digitsToNat (ds : List Char) : Nat :=
  ds.foldl (fun acc c => acc * 10 + (c.toNat - 48)) 0

/-- ECMAScript `parseInt(s)` as called by the sources (radix 10): skip
leading whitespace, allow one sign, read the longest digit prefix and
ignore anything after it; yield `NaN` (here `none`) when no digit was
read. -/
def jsParseInt (s : String) : Option Int :=
  let cs := s.data.dropWhile (fun c => jsWhitespace c)
  match cs with
  | '-' :: rest =>
    let ds := takeDigits rest
    if ds.isEmpty then none else some (-(digitsToNat ds : Int))
  | '+' :: rest =>
    let ds := takeDigits rest
    if ds.isEmpty then none else some ((digitsToNat ds : Int))
  | other =>
    let ds := takeDigits other
    if ds.isEmpty then none else some ((digitsToNat ds : Int))

/-- ECMAScript `String.prototype.trim`: strip whitespace from both
ends. -/
def jsTrim (s : String) : String :=
  ⟨((s.data.dropWhile (fun c => jsWhitespace c)).reverse.dropWhile
      (fun c => jsWhitespace c)).reverse⟩

/-- ECMAScript ToNumber on a string, restricted to the integer fragment
exercised by the sources (the sysfs pseudo files hold decimal integer
strings): the empty string converts to 0, an optionally signed digit
string converts to its value, and every other string converts to `NaN`
(here `none`).  Fractional, hexadecimal and exponent literal forms are
outside the fragment and are mapped to `none`. -/
def jsToNumber (s : String) : Option ℚ :=
  match s.data with
  | [] => some 0
  | '-' :: rest =>
    if rest ≠ [] ∧ rest.all Char.isDigit then some (-(digitsToNat rest : ℚ)) else none
  | '+' :: rest =>
    if rest ≠ [] ∧ rest.all Char.isDigit then some ((digitsToNat rest : ℚ)) else none
  | other =>
    if other ≠ [] ∧ other.all Char.isDigit then some ((digitsToNat other : ℚ)) else none

/-- GLib GSource contract for `GLib.timeout_add` callbacks, as relied on
by both monitor variants: the repeating timeout stays installed exactly
when the callback returns `true` (`G_SOURCE_CONTINUE`); returning
`false` removes it, and a GJS callback that returns `undefined` (here
`none`) is coerced to `false` and likewise removes the source. -/
def glibSourceContinues (ret : Option Bool) : Bool :=
  ret.getD false

/-- The eviction loop `while (this.history.length >= HISTORY_MAX_SIZE)
this.history.shift();` of `_refreshCharts`: repeatedly drop the oldest
sample while the buffer is at or above capacity.  (For `maxH = 0` the
JavaScript loop would not terminate; the recursion below is structural
and the claims only concern `maxH ≥ 1`.) -/
def evictWhile (maxH : Nat) : List α → List α
  | [] => []
  | c :: cs => if maxH ≤ (c :: cs).length then evictWhile maxH cs else c :: cs

/-- The buffer update of a successful tick: the eviction loop followed
by `this.history.push(v)`. -/
def pushSample (maxH : Nat) (h : List α) (v : α) : List α :=
  evictWhile maxH h ++ [v]

/-- State of the `GpuMonitor` of `lib/gpu.js` that the sampling logic
touches: the rolling `history` array (entries are `parseInt` results,
so `none` is a stored `NaN`) and the GLib timer handle `refreshTimer`
(0 when no timer is installed). -/
structure GpuMonitor where
  history : List (Option Int)
  refreshTimer : Nat
deriving DecidableEq

/-- `GpuMonitor._startTimers` of `lib/gpu.js`: unconditionally clear the
history, then install a timer only when none is running.  `newHandle`
is the (non-zero) handle `GLib.timeout_add` would return. -/
def startTimers (m : GpuMonitor) (newHandle : Nat) : GpuMonitor :=
  let cleared : GpuMonitor := { m with history := [] }
  if cleared.refreshTimer = 0 then { cleared with refreshTimer := newHandle } else cleared

/-- `GpuMonitor._stopTimers` of `lib/gpu.js`. -/
def stopTimers (m : GpuMonitor) : GpuMonitor :=
  if m.refreshTimer ≠ 0 then { m with refreshTimer := 0 } else m

/-- Success path of `GpuMonitor._refreshCharts` of `lib/gpu.js`, after
both `readSync` calls returned content: parse the GPU busy content with
`parseInt` and push the result (a `NaN` from non numeric content is
pushed like any other value) through the eviction loop.  The memory
busy content is parsed the same way but only feeds the meter and label
widgets, which are out of scope UI glue. -/
def refreshChartsOk (maxH : Nat) (m : GpuMonitor) (gpuContent memContent : String) : GpuMonitor :=
  let currentGpuUsage := jsParseInt gpuContent
  let currentGpuMemUsage := jsParseInt memContent
  let _ := currentGpuMemUsage
  { m with history := pushSample maxH m.history currentGpuUsage }

/-- `GpuMonitor._refreshCharts` of `lib/gpu.js`.  The two arguments are
the outcomes of the two `readSync` calls (`none` = the read threw).
There is no try/catch in this variant, so a throwing read aborts the
whole callback by exception: the result is `none`, the state is left as
it was, and no boolean is returned to GLib.  On success the callback
returns `true`. -/
def refreshCharts (maxH : Nat) (m : GpuMonitor) (gpuRead memRead : Option String) :
    Option (GpuMonitor × Bool) :=
  match gpuRead, memRead with
  | some g, some mc => some (refreshChartsOk maxH m g mc, true)
  | _, _ => none

/-- A run of consecutive successful ticks: fold the success path of
`_refreshCharts` over a list of (gpu content, mem content) pairs. -/
def runTicks (maxH : Nat) (m : GpuMonitor) (reads : List (String × String)) : GpuMonitor :=
  reads.foldl (fun acc r => refreshChartsOk maxH acc r.1 r.2) m

/-- Vertex list of the history polyline drawn by
`GpuMonitor._repaintHistory` of `lib/gpu.js`: for each sample index the
loop executes `ctx.lineTo(xStart + pointSpacing * i, height -
Math.ceil(history[i] * height / 100))`.  A stored `NaN` sample makes
the y coordinate `NaN` (`none`).  The surrounding `moveTo`, the closing
baseline `lineTo` and the fills are the polygon closure against the
bottom edge and carry no further geometry. -/
def repaintHistory (maxH : Nat) (m : GpuMonitor) (width height : ℚ) : List (ℚ × Option ℚ) :=
  let pointSpacing : ℚ := width / ((maxH : ℚ) - 1)
  let xStart : ℚ := ((maxH : ℚ) - (m.history.length : ℚ)) * pointSpacing
  (List.range m.history.length).map (fun i =>
    let v := m.history.getD i none
    let pointHeight : Option Int := v.map (fun (n : Int) => ⌈(n : ℚ) * height / 100⌉)
    (xStart + pointSpacing * (i : ℚ), pointHeight.map (fun (ph : Int) => height - (ph : ℚ))))

/-- State of the `GpuMonitor` of `part_000` (legacy single vendor
variant): history entries are the JavaScript numbers `contentStr / 100`
(fractions in [0,1], with `none` for a stored `NaN`). -/
structure GpuMonitorSv where
  history : List (Option ℚ)
  refreshTimer : Nat
deriving DecidableEq

/-- `GpuMonitor._startTimers` of `part_000`; textually identical to the
`lib/gpu.js` version. -/
def startTimersSv (m : GpuMonitorSv) (newHandle : Nat) : GpuMonitorSv :=
  let cleared : GpuMonitorSv := { m with history := [] }
  if cleared.refreshTimer = 0 then { cleared with refreshTimer := newHandle } else cleared

/-- `GpuMonitor._refreshCharts` of `part_000`.  Each read is wrapped in
try/catch: a thrown read (`none`) is logged and the function executes a
bare `return`, so the callback hands `undefined` (`none`) back to GLib
with the state untouched.  A read that yields content is trimmed and
coerced with ToNumber, then divided by 100 (`NaN` propagates through
the division); the resulting gpu usage value, `NaN` included, is pushed
through the eviction loop and the callback returns `true`. -/
def refreshChartsSv (maxH : Nat) (m : GpuMonitorSv) (gpuRead memRead : Option String) :
    GpuMonitorSv × Option Bool :=
  match gpuRead with
  | none => (m, none)
  | some c1 =>
    let currentGpuUsage := (jsToNumber (jsTrim c1)).map (fun q => q / 100)
    match memRead with
    | none => (m, none)
    | some c2 =>
      let currentGpuMemUsage := (jsToNumber (jsTrim c2)).map (fun q => q / 100)
      let _ := currentGpuMemUsage
      ({ m with history := pushSample maxH m.history currentGpuUsage }, some true)

/-- Device descriptor of `part_001`: `GpuDevice` holds the sysfs path it
was constructed with and a cached display name, `null` (`none`) until
the asynchronous lspci lookup succeeds. -/
structure GpuDevice where
  sysfsPath : String
  name : Option String
deriving DecidableEq

/-- `GpuDevice.getName` of `part_001`: `this.name || this.sysfsPath`.
A JavaScript `||` falls through on every falsy value, so both a `null`
name and an empty-string name yield the path. -/
def GpuDevice.getName (d : GpuDevice) : String :=
  match d.name with
  | some n => if n = "" then d.sysfsPath else n
  | none => d.sysfsPath

/-- Completion of the asynchronous `lookupName` of `AmdGpu` in
`part_001`: when the lspci subprocess pipeline succeeds it stores the
resolved device name in `this.name`; on any failure (read exception,
subprocess failure, no `Device:` line) the promise is rejected and the
cached name is left untouched. -/
def lookupNameOutcome (d : GpuDevice) (outcome : Option String) : GpuDevice :=
  match outcome with
  | some n => { d with name := some n }
  | none => d

/-- `AmdGpu.getUsage` of `part_001`:
`parseInt(new FileModule.File(path + "/device/gpu_busy_percent").readSync())`.
The outer `Option` is the exception behaviour of `readSync` (`none` =
the read threw, so `getUsage` throws too); the inner `Option Int` is
the `parseInt` result with `none` for `NaN`. -/
def AmdGpu.getUsage (readSync : String → Option String) (d : GpuDevice) : Option (Option Int) :=
  (readSync (d.sysfsPath ++ "/device/gpu_busy_percent")).map jsParseInt

/-- `GpuDevice.isOK` of `part_001`:
`try { return this.getUsage() !== null; } catch (e) { return false; }`.
`parseInt` never returns `null` (a `NaN` number is still `!== null`),
so the probe succeeds exactly when the usage read does not throw. -/
def GpuDevice.isOK (readSync : String → Option String) (d : GpuDevice) : Bool :=
  match AmdGpu.getUsage readSync d with
  | some _ => true
  | none => false

/-- The device name filter of `findGpuDevices` in `part_001`: the
regular expression `/^card[0-9]$/`, that is the four characters `card`
followed by exactly one decimal digit. -/
def cardPattern (s : String) : Bool :=
  match s.data with
  | ['c', 'a', 'r', 'd', d] => d.isDigit
  | _ => false

/-- The fixed base path scanned by `findGpuDevices`. -/
def basePath : String := "/sys/class/drm/"

/-- Loop body of `findGpuDevices` in `part_001`: for a directory entry
that passes the name filter, construct an `AmdGpu` device on the
concatenated sysfs path and insert it into the collection (keyed by
that path, in insertion order) only when its initial usage probe
succeeds. -/
def discoverStep (readSync : String → Option String) (coll : List (String × GpuDevice))
    (entry : String) : List (String × GpuDevice) :=
  if cardPattern entry then
    let sysfsPath := basePath ++ entry
    let device : GpuDevice := ⟨sysfsPath, none⟩
    if GpuDevice.isOK readSync device then coll ++ [(sysfsPath, device)] else coll
  else coll

/-- `findGpuDevices` of `part_001`, applied to the entry list obtained
from listing the base directory: fold the discovery loop body over the
entries, starting from an empty collection.  (The JavaScript `Map` is
embedded as an insertion-ordered association list; paths are distinct
per entry, so keyed insertion is a plain append.) -/
def findGpuDevices (readSync : String → Option String) (entries : List String) :
    List (String × GpuDevice) :=
  entries.foldl (discoverStep readSync) []

/-- Constant `ONE_MB_IN_B` of `part_001`. -/
def ONE_MB_IN_B : ℚ := 1000000

/-- Constant `TEN_MB_IN_B` of `part_001`. -/
def TEN_MB_IN_B : ℚ := 10000000

/-- Constant `ONE_GB_IN_B` of `part_001`. -/
def ONE_GB_IN_B : ℚ := 1000000000

/-- Constant `TEN_GB_IN_B` of `part_001`. -/
def TEN_GB_IN_B : ℚ := 10000000000

/-- Constant `ONE_TB_IN_B` of `part_001`. -/
def ONE_TB_IN_B : ℚ := 1000000000000

/-- Constant `TEN_TB_IN_B` of `part_001`. -/
def TEN_TB_IN_B : ℚ := 10000000000000

/-- Left-pad a digit string with zeros to the given length. -/
def padZeros (s : String) (len : Nat) : String :=
  if s.length < len then String.mk (List.replicate (len - s.length) '0') ++ s else s

/-- ECMAScript `Number.prototype.toFixed(p)` on the exact rational
value of the receiver: the result renders the integer n for which
n / 10 ^ p is closest to the value, ties resolved to the larger n,
that is n = ⌊q * 10 ^ p + 1 / 2⌋.  The sources only call it on
positive quantities with p = 0 or p = 1. -/
def jsToFixed (q : ℚ) (p : Nat) : String :=
  let n : Int := ⌊q * (10 : ℚ) ^ p + 1 / 2⌋
  if p = 0 then toString n
  else
    let base : Int := (10 : Int) ^ p
    toString (n / base) ++ "." ++ padZeros (toString ((n % base).natAbs)) p

/-- `bytesToHumanString` of `part_001`.  The input is `Option ℚ` with
`none` for `NaN`; per the guard `if (isNaN(bytes)) return bytes;` a
`NaN` argument is returned as the number itself rather than a string,
embedded as a `none` result. -/
def bytesToHumanString (bytes : Option ℚ) (unit : String) (imprecise : Bool) : Option String :=
  match bytes with
  | none => none
  | some b =>
    let precision : Nat := if imprecise then 0 else 1
    let qs : ℚ × String := if unit = "bits" then (b * 8, "b") else (b, "B")
    let quantity := qs.1
    let suffix := qs.2
    some (
      if quantity < 1 then "0 K" ++ suffix
      else if quantity < 1000 then "< 1 K" ++ suffix
      else if quantity < ONE_MB_IN_B then jsToFixed (quantity / 1000) 0 ++ " K" ++ suffix
      else if quantity < TEN_MB_IN_B then jsToFixed (quantity / ONE_MB_IN_B) precision ++ " M" ++ suffix
      else if quantity < ONE_GB_IN_B then jsToFixed (quantity / ONE_MB_IN_B) 0 ++ " M" ++ suffix
      else if quantity < TEN_GB_IN_B then jsToFixed (quantity / ONE_GB_IN_B) precision ++ " G" ++ suffix
      else if quantity < ONE_TB_IN_B then jsToFixed (quantity / ONE_GB_IN_B) 0 ++ " G" ++ suffix
      else if quantity < TEN_TB_IN_B then jsToFixed (quantity / ONE_TB_IN_B) precision ++ " T" ++ suffix
      else jsToFixed (quantity / ONE_TB_IN_B) 0 ++ " T" ++ suffix)

theorem evictWhile_eq_drop {α : Type} (maxH : Nat) (h1 : 1 ≤ maxH) :
    ∀ l : List α, evictWhile maxH l = l.drop (l.length + 1 - maxH)
  | [] => by simp [evictWhile]
  | c :: cs => by
    rw [evictWhile]
    by_cases hc : maxH ≤ (c :: cs).length
    · rw [if_pos hc, evictWhile_eq_drop maxH h1 cs]
      have he : (c :: cs).length + 1 - maxH = (cs.length + 1 - maxH) + 1 := by
        simp only [List.length_cons] at hc ⊢
        omega
      rw [he, List.drop_succ_cons]
    · rw [if_neg hc]
      have he : (c :: cs).length + 1 - maxH = 0 := by
        simp only [List.length_cons, not_le] at hc ⊢
        omega
      rw [he, List.drop_zero]

theorem pushSample_eq_drop {α : Type} (maxH : Nat) (h1 : 1 ≤ maxH) (l : List α) (v : α) :
    pushSample maxH l v = l.drop (l.length + 1 - maxH) ++ [v] := by
  rw [pushSample, evictWhile_eq_drop maxH h1]

theorem pushSample_length {α : Type} (maxH : Nat) (h1 : 1 ≤ maxH) (l : List α) (v : α) :
    (pushSample maxH l v).length = min (l.length + 1) maxH := by
  rw [pushSample_eq_drop maxH h1, List.length_append, List.length_drop]
  simp only [List.length_singleton]
  omega

theorem pushSample_getLast {α : Type} (maxH : Nat) (l : List α) (v : α) :
    (pushSample maxH l v).getLast? = some v := by
  rw [pushSample]
  exact List.getLast?_concat _

theorem foldl_pushSample {α : Type} (maxH : Nat) (h1 : 1 ≤ maxH) :
    ∀ (ws acc : List α), acc.length ≤ maxH →
      ws.foldl (pushSample maxH) acc = (acc ++ ws).drop ((acc ++ ws).length - maxH)
  | [], acc => fun hacc => by
    simp only [List.foldl_nil, List.append_nil]
    rw [Nat.sub_eq_zero_of_le hacc, List.drop_zero]
  | w :: ws, acc => fun hacc => by
    rw [List.foldl_cons]
    have hlen : (pushSample maxH acc w).length ≤ maxH := by
      rw [pushSample_length maxH h1]
      omega
    rw [foldl_pushSample maxH h1 ws (pushSample maxH acc w) hlen,
      pushSample_eq_drop maxH h1]
    have hd : acc.length + 1 - maxH ≤ acc.length := by omega
    rw [List.append_assoc, List.singleton_append,
      ← List.drop_append_of_le_length hd, List.drop_drop]
    congr 1
    simp only [List.length_append, List.length_drop, List.length_cons]
    omega

theorem startTimers_history (m : GpuMonitor) (newHandle : Nat) :
    (startTimers m newHandle).history = [] := by
  rw [startTimers]
  split <;> rfl

theorem startTimersSv_history (m : GpuMonitorSv) (newHandle : Nat) :
    (startTimersSv m newHandle).history = [] := by
  rw [startTimersSv]
  split <;> rfl

theorem runTicks_history (maxH : Nat) :
    ∀ (reads : List (String × String)) (m : GpuMonitor),
      (runTicks maxH m reads).history
        = (reads.map (fun r => jsParseInt r.1)).foldl (pushSample maxH) m.history
  | [], m => by simp [runTicks]
  | r :: rs, m => by
    rw [runTicks, List.foldl_cons, List.map_cons, List.foldl_cons]
    exact runTicks_history maxH rs (refreshChartsOk maxH m r.1 r.2)

/-- C1: for every sequence of N successful samples with N greater than
the maximum history size, appended through the tick operation after a
start, the history buffer holds exactly the most recent maxHistorySize
samples in oldest-first order (it equals the parsed sample list with
its oldest surplus dropped, and has length exactly maxHistorySize),
and at no intermediate point does its length exceed maxHistorySize. -/
theorem c1_bounded_fifo_history (maxH newHandle : Nat) (m0 : GpuMonitor)
    (reads : List (String × String)) (h1 : 1 ≤ maxH) (hN : maxH < reads.length) :
    (runTicks maxH (startTimers m0 newHandle) reads).history
        = (reads.map (fun r => jsParseInt r.1)).drop (reads.length - maxH)
      ∧ (runTicks maxH (startTimers m0 newHandle) reads).history.length = maxH
      ∧ ∀ k : Nat,
          (runTicks maxH (startTimers m0 newHandle) (reads.take k)).history.length ≤ maxH := by
  have hmain : (runTicks maxH (startTimers m0 newHandle) reads).history
      = (reads.map (fun r => jsParseInt r.1)).drop (reads.length - maxH) := by
    rw [runTicks_history, startTimers_history,
      foldl_pushSample maxH h1 _ [] (by simp)]
    simp [List.length_map]
  refine ⟨hmain, ?_, ?_⟩
  · rw [hmain, List.length_drop, List.length_map]
    omega
  · intro k
    rw [runTicks_history, startTimers_history,
      foldl_pushSample maxH h1 _ [] (by simp)]
    simp only [List.nil_append, List.length_drop]
    omega

/-- Witness for C1 at the scenario of the specification: maximum size 5
and the six successful reads 10, 20, 30, 40, 50, 60, ending in the
buffer 20, 30, 40, 50, 60. -/
theorem c1_witness :
    1 ≤ 5
      ∧ 5 < ([("10", "0"), ("20", "0"), ("30", "0"), ("40", "0"), ("50", "0"), ("60", "0")]
          : List (String × String)).length
      ∧ (runTicks 5 (startTimers ⟨[some 9], 4⟩ 3)
            [("10", "0"), ("20", "0"), ("30", "0"), ("40", "0"), ("50", "0"), ("60", "0")]).history
          = ([("10", "0"), ("20", "0"), ("30", "0"), ("40", "0"), ("50", "0"), ("60", "0")].map
              (fun r => jsParseInt r.1)).drop
              (([("10", "0"), ("20", "0"), ("30", "0"), ("40", "0"), ("50", "0"), ("60", "0")]
                : List (String × String)).length - 5)
      ∧ (runTicks 5 (startTimers ⟨[some 9], 4⟩ 3)
            ([("10", "0"), ("20", "0"), ("30", "0"), ("40", "0"), ("50", "0"), ("60", "0")].take 4)).history.length
          ≤ 5 :=
  ⟨by decide, by decide,
    (c1_bounded_fifo_history 5 3 ⟨[some 9], 4⟩
      [("10", "0"), ("20", "0"), ("30", "0"), ("40", "0"), ("50", "0"), ("60", "0")]
      (by decide) (by decide)).1,
    (c1_bounded_fifo_history 5 3 ⟨[some 9], 4⟩
      [("10", "0"), ("20", "0"), ("30", "0"), ("40", "0"), ("50", "0"), ("60", "0")]
      (by decide) (by decide)).2.2 4⟩

/-- C3 fails on the code: calling start while a timer is running is not
a no-op on the state, because the history buffer is cleared before the
timer-handle guard.  At the concrete state with a running timer handle
7 and one stored sample, a second start changes the state. -/
theorem c3_counterexample :
    startTimers { history := [some 1], refreshTimer := 7 } 9
      ≠ { history := [some 1], refreshTimer := 7 } := by decide

/-- C3 amended: calling start while the sampler is already running does
not create a second timer and leaves the non-zero timer handle
unchanged, but it is not a no-op on the whole state: it always resets
the history buffer to empty. -/
theorem c3_start_idempotent_only_for_timer (m : GpuMonitor) (newHandle : Nat)
    (hrun : m.refreshTimer ≠ 0) :
    (startTimers m newHandle).refreshTimer = m.refreshTimer
      ∧ (startTimers m newHandle).history = [] := by
  constructor
  · rw [startTimers]
    simp [hrun]
  · exact startTimers_history m newHandle

/-- Witness for the amended C3 at a concrete running state. -/
theorem c3_witness :
    ({ history := [some 1], refreshTimer := 7 } : GpuMonitor).refreshTimer ≠ 0
      ∧ (startTimers { history := [some 1], refreshTimer := 7 } 9).refreshTimer
          = ({ history := [some 1], refreshTimer := 7 } : GpuMonitor).refreshTimer
      ∧ (startTimers { history := [some 1], refreshTimer := 7 } 9).history = [] :=
  ⟨by decide,
    (c3_start_idempotent_only_for_timer { history := [some 1], refreshTimer := 7 } 9 (by decide)).1,
    (c3_start_idempotent_only_for_timer { history := [some 1], refreshTimer := 7 } 9 (by decide)).2⟩

/-- C4: in both monitor variants, start always resets the history
buffer to the empty sequence regardless of its prior contents, and an
individual sample tick never clears the buffer: a tick taken from a
non-empty buffer leaves it non-empty (a successful tick appends a
sample and evicts at most down to capacity, a failed tick leaves the
buffer untouched). -/
theorem c4_cleared_only_on_start (m : GpuMonitor) (msv : GpuMonitorSv)
    (newHandle maxH : Nat) (g mc : String) (r1 r2 : Option String) :
    (startTimers m newHandle).history = []
      ∧ (startTimersSv msv newHandle).history = []
      ∧ (m.history ≠ [] → (refreshChartsOk maxH m g mc).history ≠ [])
      ∧ (msv.history ≠ [] → (refreshChartsSv maxH msv r1 r2).1.history ≠ []) := by
  refine ⟨startTimers_history m newHandle, startTimersSv_history msv newHandle, ?_, ?_⟩
  · intro _
    simp [refreshChartsOk, pushSample]
  · intro hne
    match r1, r2 with
    | none, _ => exact hne
    | some c1, none => exact hne
    | some c1, some c2 => simp [refreshChartsSv, pushSample]

/-- Witness for C4 at concrete states with non-empty buffers. -/
theorem c4_witness :
    (startTimers ⟨[some 3], 0⟩ 9).history = []
      ∧ (startTimersSv ⟨[some (1/2)], 5⟩ 9).history = []
      ∧ ({ history := [some 3], refreshTimer := 0 } : GpuMonitor).history ≠ []
      ∧ (refreshChartsOk 5 ⟨[some 3], 0⟩ "40" "2").history ≠ []
      ∧ ({ history := [some (1/2)], refreshTimer := 5 } : GpuMonitorSv).history ≠ []
      ∧ (refreshChartsSv 5 ⟨[some (1/2)], 5⟩ none none).1.history ≠ [] :=
  ⟨(c4_cleared_only_on_start ⟨[some 3], 0⟩ ⟨[some (1/2)], 5⟩ 9 5 "40" "2" none none).1,
    (c4_cleared_only_on_start ⟨[some 3], 0⟩ ⟨[some (1/2)], 5⟩ 9 5 "40" "2" none none).2.1,
    by simp,
    (c4_cleared_only_on_start ⟨[some 3], 0⟩ ⟨[some (1/2)], 5⟩ 9 5 "40" "2" none none).2.2.1
      (by simp),
    by simp,
    (c4_cleared_only_on_start ⟨[some 3], 0⟩ ⟨[some (1/2)], 5⟩ 9 5 "40" "2" none none).2.2.2
      (by simp)⟩

/-- C2, evaluated on the code: a tick whose metric read throws leaves
the buffer untouched in the legacy variant, but its catch path executes
a bare return, so the timer callback hands `undefined` back to GLib and
the timeout source is removed: by the GSource contract the timer does
not fire again, contradicting the claim that it remains active.  In
the `lib/gpu.js` variant a throwing read aborts the callback by an
uncaught exception (no boolean is returned at all).  Moreover a read
that succeeds with non numeric content is not treated as a failure:
the `NaN` it parses to is appended to the buffer, changing length and
contents, while the callback reports success. -/
theorem c2_failed_tick_behavior (maxH : Nat) (m : GpuMonitor) (msv : GpuMonitorSv)
    (memRead : Option String) (g : String) :
    refreshChartsSv maxH msv none memRead = (msv, none)
      ∧ glibSourceContinues (refreshChartsSv maxH msv none memRead).2 = false
      ∧ refreshCharts maxH m none memRead = none
      ∧ refreshCharts maxH m (some g) none = none
      ∧ (refreshChartsSv maxH msv (some "N/A") (some "0")).1.history
          = pushSample maxH msv.history none
      ∧ (refreshChartsSv maxH msv (some "N/A") (some "0")).2 = some true
      ∧ (refreshChartsOk maxH m "N/A" g).history = pushSample maxH m.history none := by
  refine ⟨rfl, rfl, rfl, rfl, ?_, ?_, ?_⟩
  · have hnan : (jsToNumber (jsTrim "N/A")).map (fun q => q / 100) = none := by decide
    simp [refreshChartsSv, hnan]
  · rfl
  · have hnan : jsParseInt "N/A" = none := by decide
    simp [refreshChartsOk, hnan]

/-- C6 fails on the code: a tick whose read returns empty content is
not dropped.  At the concrete empty buffer, the `lib/gpu.js` tick on
empty content pushes the `NaN` that `parseInt` produces, so the buffer
changes. -/
theorem c6_counterexample :
    (refreshChartsOk 5 { history := [], refreshTimer := 7 } "" "0").history
      ≠ ({ history := [], refreshTimer := 7 } : GpuMonitor).history := by decide

/-- C6 amended: a read of content 87 with a trailing newline parses to
the percentage 87; but empty or non numeric content is not detected as
a failure and the tick is not dropped: `parseInt` yields `NaN`, the
legacy Number coercion yields 0 for empty content, and that value is
appended to the history buffer as a sample, growing its length by one
up to the capacity bound. -/
theorem c6_parse_and_nan_append (maxH : Nat) (m : GpuMonitor) (msv : GpuMonitorSv)
    (c1 c2 c3 : String) (h1 : 1 ≤ maxH) :
    jsParseInt "87\n" = some 87
      ∧ jsParseInt "" = none
      ∧ jsParseInt "N/A" = none
      ∧ (refreshChartsOk maxH m "" c1).history.getLast? = some none
      ∧ (refreshChartsOk maxH m "" c1).history.length = min (m.history.length + 1) maxH
      ∧ (refreshChartsOk maxH m "N/A" c2).history.getLast? = some none
      ∧ jsToNumber "" = some 0
      ∧ (refreshChartsSv maxH msv (some "") (some c3)).1.history.getLast? = some (some 0) := by
  have hp1 : jsParseInt "" = none := by decide
  have hp2 : jsParseInt "N/A" = none := by decide
  have hp3 : (jsToNumber (jsTrim "")).map (fun q => q / 100) = some 0 := by
    norm_num [jsTrim, jsToNumber, digitsToNat]
  refine ⟨by decide, hp1, hp2, ?_, ?_, ?_, by decide, ?_⟩
  · simp [refreshChartsOk, hp1, pushSample_getLast]
  · simp [refreshChartsOk, hp1, pushSample_length maxH h1]
  · simp [refreshChartsOk, hp2, pushSample_getLast]
  · simp [refreshChartsSv, hp3, pushSample_getLast]

/-- Witness for the amended C6 at the empty buffer with capacity 5. -/
theorem c6_witness :
    1 ≤ 5
      ∧ jsParseInt "87\n" = some 87
      ∧ jsParseInt "" = none
      ∧ jsParseInt "N/A" = none
      ∧ (refreshChartsOk 5 ⟨[], 0⟩ "" "x").history.getLast? = some none
      ∧ (refreshChartsOk 5 ⟨[], 0⟩ "" "x").history.length
          = min (({ history := [], refreshTimer := 0 } : GpuMonitor).history.length + 1) 5
      ∧ (refreshChartsOk 5 ⟨[], 0⟩ "N/A" "y").history.getLast? = some none
      ∧ jsToNumber "" = some 0
      ∧ (refreshChartsSv 5 ⟨[], 0⟩ (some "") (some "z")).1.history.getLast? = some (some 0) :=
  ⟨by decide,
    (c6_parse_and_nan_append 5 ⟨[], 0⟩ ⟨[], 0⟩ "x" "y" "z" (by decide)).1,
    (c6_parse_and_nan_append 5 ⟨[], 0⟩ ⟨[], 0⟩ "x" "y" "z" (by decide)).2.1,
    (c6_parse_and_nan_append 5 ⟨[], 0⟩ ⟨[], 0⟩ "x" "y" "z" (by decide)).2.2.1,
    (c6_parse_and_nan_append 5 ⟨[], 0⟩ ⟨[], 0⟩ "x" "y" "z" (by decide)).2.2.2.1,
    (c6_parse_and_nan_append 5 ⟨[], 0⟩ ⟨[], 0⟩ "x" "y" "z" (by decide)).2.2.2.2.1,
    (c6_parse_and_nan_append 5 ⟨[], 0⟩ ⟨[], 0⟩ "x" "y" "z" (by decide)).2.2.2.2.2.1,
    (c6_parse_and_nan_append 5 ⟨[], 0⟩ ⟨[], 0⟩ "x" "y" "z" (by decide)).2.2.2.2.2.2.1,
    (c6_parse_and_nan_append 5 ⟨[], 0⟩ ⟨[], 0⟩ "x" "y" "z" (by decide)).2.2.2.2.2.2.2⟩

/-- C5: for a buffer of numeric samples of length L at most the maximum
history size and any chart width and height, the rendered polyline
vertices have horizontal spacing W / (maxHistorySize - 1), the vertex
for sample i sits at x = (maxHistorySize - L) * spacing + spacing * i
(so the first vertex sits at x = (maxHistorySize - L) * spacing), and
each y coordinate is H - ceil(sample_fraction * H) with sample_fraction
the stored percentage divided by 100. -/
theorem c5_render_geometry (maxH : Nat) (m : GpuMonitor) (nums : List Int) (W H : ℚ)
    (hmax : 2 ≤ maxH) (hist : m.history = nums.map (fun n => some n))
    (hlen : m.history.length ≤ maxH) :
    (repaintHistory maxH m W H
        = (List.range nums.length).map (fun (i : Nat) =>
            (((maxH : ℚ) - (nums.length : ℚ)) * (W / ((maxH : ℚ) - 1))
                + (W / ((maxH : ℚ) - 1)) * (i : ℚ),
              some (H - (⌈((nums.getD i 0 : ℚ) / 100) * H⌉ : ℚ)))))
      ∧ (1 ≤ nums.length →
          ((repaintHistory maxH m W H).headD (0, none)).1
            = ((maxH : ℚ) - (nums.length : ℚ)) * (W / ((maxH : ℚ) - 1))) := by
  have hmain : repaintHistory maxH m W H
      = (List.range nums.length).map (fun (i : Nat) =>
          (((maxH : ℚ) - (nums.length : ℚ)) * (W / ((maxH : ℚ) - 1))
              + (W / ((maxH : ℚ) - 1)) * (i : ℚ),
            some (H - (⌈((nums.getD i 0 : ℚ) / 100) * H⌉ : ℚ)))) := by
    rw [repaintHistory, hist, List.length_map]
    apply List.map_congr_left
    intro i hi
    rw [List.mem_range] at hi
    have h1 : (nums.map (fun n => some n)).getD i none = some (nums.getD i 0) := by
      rw [List.getD_eq_getElem?_getD, List.getElem?_map,
        List.getElem?_eq_getElem hi, List.getD_eq_getElem nums 0 hi]
      rfl
    rw [h1]
    have hceil : (⌈((nums.getD i 0 : ℚ)) / 100 * H⌉ : ℤ)
        = ⌈((nums.getD i 0 : ℚ)) * H / 100⌉ := by
      rw [div_mul_eq_mul_div]
    rw [hceil]
    simp only [Option.map_some']
  refine ⟨hmain, fun hpos => ?_⟩
  obtain ⟨k, hk⟩ : ∃ k, nums.length = k + 1 := ⟨nums.length - 1, by omega⟩
  rw [hmain, hk, List.range_succ_eq_map, List.map_cons, List.headD_cons]
  simp

/-- Witness for C5: capacity 5, two stored samples 50 and 100, chart 8
wide and 10 high. -/
theorem c5_witness :
    2 ≤ 5
      ∧ ({ history := [some 50, some 100], refreshTimer := 3 } : GpuMonitor).history
          = [(50 : Int), 100].map (fun n => some n)
      ∧ ({ history := [some 50, some 100], refreshTimer := 3 } : GpuMonitor).history.length ≤ 5
      ∧ (repaintHistory 5 ⟨[some 50, some 100], 3⟩ 8 10
          = (List.range ([(50 : Int), 100].length)).map (fun (i : Nat) =>
              (((5 : ℚ) - (([(50 : Int), 100].length : Nat) : ℚ)) * ((8 : ℚ) / ((5 : ℚ) - 1))
                  + ((8 : ℚ) / ((5 : ℚ) - 1)) * (i : ℚ),
                some ((10 : ℚ) - (⌈(([(50 : Int), 100].getD i 0 : ℚ) / 100) * (10 : ℚ)⌉ : ℚ)))))
      ∧ ((repaintHistory 5 ⟨[some 50, some 100], 3⟩ 8 10).headD (0, none)).1
          = ((5 : ℚ) - (([(50 : Int), 100].length : Nat) : ℚ)) * ((8 : ℚ) / ((5 : ℚ) - 1)) :=
  ⟨by decide, by decide, by decide,
    (c5_render_geometry 5 ⟨[some 50, some 100], 3⟩ [50, 100] 8 10
      (by decide) (by decide) (by decide)).1,
    (c5_render_geometry 5 ⟨[some 50, some 100], 3⟩ [50, 100] 8 10
      (by decide) (by decide) (by decide)).2 (by decide)⟩

theorem findGpuDevices_foldl (readSync : String → Option String) :
    ∀ (entries : List String) (coll : List (String × GpuDevice)),
      entries.foldl (discoverStep readSync) coll
        = coll ++ ((entries.filter (fun e => cardPattern e)).map
            (fun e => (basePath ++ e, (⟨basePath ++ e, none⟩ : GpuDevice)))).filter
            (fun d => GpuDevice.isOK readSync d.2)
  | [], coll => by simp
  | e :: es, coll => by
    rw [List.foldl_cons, findGpuDevices_foldl readSync es]
    by_cases hc : cardPattern e
    · by_cases hok : GpuDevice.isOK readSync ⟨basePath ++ e, none⟩
      · simp [discoverStep, hc, hok, List.filter_cons]
      · simp [discoverStep, hc, hok, List.filter_cons]
    · simp [discoverStep, hc, List.filter_cons]

/-- C7: device discovery keeps as candidates exactly the directory
entries matching the card name pattern, builds one device per
candidate on the concatenated base path, and retains exactly those
whose initial usage probe succeeds; in particular, of the entries
card0, card1 and renderD128 only card0 and card1 are candidates, and
with a probe that only succeeds for card0 the final collection holds
exactly the card0 device. -/
theorem c7_discovery_pipeline (readSync : String → Option String) (entries : List String) :
    (findGpuDevices readSync entries
        = ((entries.filter (fun e => cardPattern e)).map
            (fun e => (basePath ++ e, (⟨basePath ++ e, none⟩ : GpuDevice)))).filter
            (fun d => GpuDevice.isOK readSync d.2))
      ∧ ["card0", "card1", "renderD128"].filter (fun e => cardPattern e) = ["card0", "card1"]
      ∧ findGpuDevices
            (fun p => if p = "/sys/class/drm/card0/device/gpu_busy_percent" then some "42" else none)
            ["card0", "card1", "renderD128"]
          = [("/sys/class/drm/card0", ⟨"/sys/class/drm/card0", none⟩)] := by
  refine ⟨?_, by decide, by decide⟩
  rw [findGpuDevices]
  simpa using findGpuDevices_foldl readSync entries []

/-- C9: the discovery name filter is the anchored regular expression
card[0-9], which matches only a single trailing digit: an entry that
is card followed by two or more digits is rejected by the filter and
never becomes a candidate device, even though its suffix consists only
of digits. -/
theorem c9_multi_digit_card_rejected (ds : List Char) (readSync : String → Option String)
    (hlen : 2 ≤ ds.length) (hdig : ds.all Char.isDigit = true) :
    cardPattern (String.mk ('c' :: 'a' :: 'r' :: 'd' :: ds)) = false
      ∧ findGpuDevices readSync [String.mk ('c' :: 'a' :: 'r' :: 'd' :: ds)] = [] := by
  have hp : cardPattern (String.mk ('c' :: 'a' :: 'r' :: 'd' :: ds)) = false := by
    cases ds with
    | nil => simp at hlen
    | cons a t =>
      cases t with
      | nil => simp at hlen
      | cons b u => rfl
  exact ⟨hp, by simp [findGpuDevices, discoverStep, hp]⟩

/-- Witness for C9 at the entry card10. -/
theorem c9_witness :
    2 ≤ (['1', '0'] : List Char).length
      ∧ (['1', '0'] : List Char).all Char.isDigit = true
      ∧ cardPattern (String.mk ('c' :: 'a' :: 'r' :: 'd' :: ['1', '0'])) = false
      ∧ findGpuDevices (fun _ => some "0") [String.mk ('c' :: 'a' :: 'r' :: 'd' :: ['1', '0'])]
          = [] :=
  ⟨by decide, by decide,
    (c9_multi_digit_card_rejected ['1', '0'] (fun _ => some "0") (by decide) (by decide)).1,
    (c9_multi_digit_card_rejected ['1', '0'] (fun _ => some "0") (by decide) (by decide)).2⟩

/-- C8: a device whose cached name is unset reports its filesystem
path as its display name, and a failed asynchronous name resolution
leaves the cached name unset, so the path fallback still applies:
name-resolution failure is non-fatal. -/
theorem c8_name_fallback_to_path (d : GpuDevice) (hunset : d.name = none) :
    GpuDevice.getName d = d.sysfsPath
      ∧ lookupNameOutcome d none = d
      ∧ GpuDevice.getName (lookupNameOutcome d none) = d.sysfsPath := by
  have hn : GpuDevice.getName d = d.sysfsPath := by
    rw [GpuDevice.getName, hunset]
  exact ⟨hn, rfl, hn⟩

/-- Witness for C8 at a concrete unnamed device. -/
theorem c8_witness :
    ({ sysfsPath := "/sys/class/drm/card0", name := none } : GpuDevice).name = none
      ∧ GpuDevice.getName ⟨"/sys/class/drm/card0", none⟩ = "/sys/class/drm/card0"
      ∧ lookupNameOutcome ⟨"/sys/class/drm/card0", none⟩ none = ⟨"/sys/class/drm/card0", none⟩
      ∧ GpuDevice.getName (lookupNameOutcome ⟨"/sys/class/drm/card0", none⟩ none)
          = "/sys/class/drm/card0" :=
  ⟨by decide,
    (c8_name_fallback_to_path ⟨"/sys/class/drm/card0", none⟩ rfl).1,
    (c8_name_fallback_to_path ⟨"/sys/class/drm/card0", none⟩ rfl).2.1,
    (c8_name_fallback_to_path ⟨"/sys/class/drm/card0", none⟩ rfl).2.2⟩

/-- C10: with unit bytes, a positive quantity below one byte renders as
0 KB and a quantity of at least one byte but under a thousand renders
as the activity indicator, below one KB; an exact byte count is never
reported, regardless of the imprecise flag. -/
theorem c10_sub_kilobyte_formatting (b c : ℚ) (imp1 imp2 : Bool)
    (h1 : 0 < b) (h2 : b < 1) (h3 : 1 ≤ c) (h4 : c < 1000) :
    bytesToHumanString (some b) "bytes" imp1 = some "0 KB"
      ∧ bytesToHumanString (some c) "bytes" imp2 = some "< 1 KB" := by
  have hbits : ¬ ("bytes" = "bits") := by decide
  constructor
  · rw [bytesToHumanString]
    simp only [if_neg hbits]
    rw [if_pos h2]
    decide
  · rw [bytesToHumanString]
    simp only [if_neg hbits]
    rw [if_neg (not_lt.mpr h3), if_pos h4]
    decide

/-- Witness for C10 at half a byte and at 87 bytes. -/
theorem c10_witness :
    (0 : ℚ) < 1 / 2 ∧ (1 : ℚ) / 2 < 1 ∧ (1 : ℚ) ≤ 87 ∧ (87 : ℚ) < 1000
      ∧ bytesToHumanString (some (1 / 2)) "bytes" false = some "0 KB"
      ∧ bytesToHumanString (some 87) "bytes" true = some "< 1 KB" :=
  ⟨by norm_num, by norm_num, by norm_num, by norm_num,
    (c10_sub_kilobyte_formatting (1 / 2) 87 false true
      (by norm_num) (by norm_num) (by norm_num) (by norm_num)).1,
    (c10_sub_kilobyte_formatting (1 / 2) 87 false true
      (by norm_num) (by norm_num) (by norm_num) (by norm_num)).2⟩
